import Mathlib

/-!
Verification of the caffeine-intake analytics engine of this repository.

The shallow embedding below translates the engine functions of `Cafe1.py`
(the variant realizing the full rule table and windowed trend analyzer of
the specification), together with the daily-entry submit handler shared by
all variants.  Python floats become `ℚ`, Python ints become `ℤ` or `ℕ`,
Python dicts (which iterate in insertion order) become association lists,
and pandas data frames of daily records become lists ordered by date.
-/

namespace Cafe

/-- The static caffeine catalog `CAFFEINE_CATALOG` of `Cafe1.py` (also
`cafe.py`): mg of caffeine per standard unit, in source insertion order. -/
def CAFFEINE_CATALOG : List (String × ℤ) :=
  [("Espresso (30 ml)", 75),
   ("Café filtre (250 ml)", 95),
   ("Café instantané (250 ml)", 60),
   ("Thé noir (250 ml)", 45),
   ("Thé vert (250 ml)", 30),
   ("Boisson énergétique (250 ml)", 80),
   ("Cola (330 ml)", 35),
   ("Chocolat (50 g)", 10)]

/-- `CAFFEINE_CATALOG.get(drink, 0)` of `compute_caffeine_total`:
per-unit mg for a label, defaulting to 0 for labels not in the catalog. -/
def catalogMg (drink : String) : ℤ :=
  (CAFFEINE_CATALOG.lookup drink).getD 0

/-- One entry of the breakdown: the f-string `"{drink} x{qty} ({mg} mg)"`. -/
def partStr (drink : String) (qty mg : ℤ) : String :=
  drink ++ " x" ++ toString qty ++ " (" ++ toString mg ++ " mg)"

/-- The loop of `compute_caffeine_total` (`Cafe1.py` lines 145-156):
walks the quantity mapping in its own iteration order, skips entries with
`qty <= 0`, accumulates `qty * mg_unit` into the total and appends the
formatted part string.  Returns (total, parts list). -/
def caffeineAcc : List (String × ℤ) → ℤ × List String
  | [] => (0, [])
  | (drink, qty) :: rest =>
    if qty ≤ 0 then caffeineAcc rest
    else (qty * catalogMg drink + (caffeineAcc rest).1,
          partStr drink qty (qty * catalogMg drink) :: (caffeineAcc rest).2)

/-- `compute_caffeine_total(drink_qty)` of `Cafe1.py`/`cafe.py`: total mg
and the `" | "`-joined breakdown string (empty when no part qualifies,
since `String.intercalate " | " [] = ""`). -/
def compute_caffeine_total (drink_qty : List (String × ℤ)) : ℤ × String :=
  ((caffeineAcc drink_qty).1, String.intercalate " | " (caffeineAcc drink_qty).2)

/-- Modelled from the spec (section 4.1 `totalIntake`): the breakdown string
that lists items with count > 0 in CATALOG iteration order, as the spec's
words demand.  Used only to compare with the behaviour of the source's
`compute_caffeine_total`, which iterates the mapping instead. -/
def specCatalogOrderBreakdown (drink_qty : List (String × ℤ)) : String :=
  String.intercalate " | " (CAFFEINE_CATALOG.filterMap (fun c =>
    match drink_qty.lookup c.1 with
    | some q => if 0 < q then some (partStr c.1 q (q * c.2)) else none
    | none => none))

/-- `compute_sleep_hours_from_hours(bed_hour, wake_hour)` of `Cafe1.py`
lines 131-142 (identically `CafeLamiaa.py` lines 132-142): if
`wake <= bed`, wake is pushed to the next day (`wake += 24`) before
subtracting.  The source's `round(float(...), 2)` is the identity on the
integer result and is therefore dropped. -/
def compute_sleep_hours_from_hours (bed_hour wake_hour : ℤ) : ℤ :=
  if wake_hour ≤ bed_hour then wake_hour + 24 - bed_hour
  else wake_hour - bed_hour

/-- `caffeine_level(mg)` of `Cafe1.py` lines 159-165 (identically
`risk_level` in `cafe.py`): three-way classification of the daily total. -/
def caffeine_level (mg : ℚ) : String :=
  if mg < 100 then "Faible"
  else if mg ≤ 200 then "Moyen"
  else "Élevé"

/-- A stored daily log row, reduced to the duplicate key (participant id,
date) plus a representative payload field.  Dates are day ordinals. -/
structure LogRec where
  participant_id : String
  date : ℤ
  caffeine_mg_total : ℤ
deriving DecidableEq

/-- Outcome of the daily-entry submit handler: either the new stored
collection, or a duplicate-key rejection carrying the untouched store. -/
inductive SubmitOutcome where
  | saved (logs : List LogRec)
  | duplicateKey (logs : List LogRec)
deriving DecidableEq

/-- The `daily_entry` submit handler of `Cafe1.py` lines 537-602 (same
logic in `cafe.py` lines 399-452): if a row with the same
(participant_id, date) pair exists, show the duplicate error and do not
save; otherwise append the new row and save.  An empty store takes the
append branch directly, exactly as the source's outer `if not logs.empty`. -/
def submit_daily_entry (logs : List LogRec) (r : LogRec) : SubmitOutcome :=
  if logs.any (fun x => decide (x.participant_id = r.participant_id)
      && decide (x.date = r.date)) then
    SubmitOutcome.duplicateKey logs
  else
    SubmitOutcome.saved (logs ++ [r])

/-- The sequential accumulation of `compute_caffeine_total` is the
filter-then-map of the input mapping: only entries with positive count
survive, in mapping order, each contributing `count * catalogMg`. -/
lemma caffeineAcc_eq (dq : List (String × ℤ)) :
    caffeineAcc dq =
      (((dq.filter fun p => decide (0 < p.2)).map fun p => p.2 * catalogMg p.1).sum,
       (dq.filter fun p => decide (0 < p.2)).map fun p => partStr p.1 p.2 (p.2 * catalogMg p.1)) := by
  induction dq with
  | nil => rfl
  | cons hd tl ih =>
    rcases hd with ⟨d, q⟩
    by_cases hq : q ≤ 0
    · have h0 : ¬ (0 < q) := by omega
      simp [caffeineAcc, List.filter_cons, hq, h0, ih]
    · have h0 : 0 < q := by omega
      simp [caffeineAcc, List.filter_cons, hq, h0, ih]

/-- C2: the sleep-duration computation returns `wake - bed` when
`wake > bed` and `wake + 24 - bed` when `wake <= bed`, for all hours in
0..23; in particular 23→7 gives 8, 7→23 gives 16, and the degenerate
equal-hours case 7→7 gives a full 24 hours. -/
theorem c2_sleep_duration :
    (∀ bed wake : ℤ, 0 ≤ bed → bed ≤ 23 → 0 ≤ wake → wake ≤ 23 →
      ((bed < wake → compute_sleep_hours_from_hours bed wake = wake - bed) ∧
       (wake ≤ bed → compute_sleep_hours_from_hours bed wake = wake + 24 - bed)))
    ∧ compute_sleep_hours_from_hours 23 7 = 8
    ∧ compute_sleep_hours_from_hours 7 23 = 16
    ∧ compute_sleep_hours_from_hours 7 7 = 24 := by
  refine ⟨?_, by decide, by decide, by decide⟩
  intro bed wake _ _ _ _
  constructor
  · intro h
    rw [compute_sleep_hours_from_hours, if_neg (by omega)]
  · intro h
    rw [compute_sleep_hours_from_hours, if_pos h]

/-- Witness for C2: the universal part applied at bed 23, wake 7. -/
theorem c2_sleep_duration_witness :
    compute_sleep_hours_from_hours 23 7 = 7 + 24 - 23 :=
  (c2_sleep_duration.1 23 7 (by decide) (by decide) (by decide) (by decide)).2 (by decide)

/-- C3: the three-way intake classification is Low exactly below 100,
Medium exactly on [100, 200], High exactly above 200; in particular 99.9
is Low, 100 and 200 are Medium, 200.01 is High. -/
theorem c3_intake_level :
    (∀ t : ℚ, 0 ≤ t →
      ((caffeine_level t = "Faible" ↔ t < 100) ∧
       (caffeine_level t = "Moyen" ↔ 100 ≤ t ∧ t ≤ 200) ∧
       (caffeine_level t = "Élevé" ↔ 200 < t)))
    ∧ caffeine_level (999/10) = "Faible"
    ∧ caffeine_level 100 = "Moyen"
    ∧ caffeine_level 200 = "Moyen"
    ∧ caffeine_level (20001/100) = "Élevé" := by
  refine ⟨?_, by norm_num [caffeine_level], by decide, by decide,
    by norm_num [caffeine_level]⟩
  intro t _
  unfold caffeine_level
  split_ifs with h1 h2
  · refine ⟨by simp [h1], ?_, ?_⟩
    · constructor
      · intro hstr; exact absurd hstr (by decide)
      · rintro ⟨h100, _⟩; linarith
    · constructor
      · intro hstr; exact absurd hstr (by decide)
      · intro h200; linarith
  · refine ⟨?_, by simp [not_lt.mp h1, h2], ?_⟩
    · constructor
      · intro hstr; exact absurd hstr (by decide)
      · intro h; exact absurd h h1
    · constructor
      · intro hstr; exact absurd hstr (by decide)
      · intro h200; linarith
  · refine ⟨?_, ?_, by simp [not_le.mp h2]⟩
    · constructor
      · intro hstr; exact absurd hstr (by decide)
      · intro h; exact absurd h h1
    · constructor
      · intro hstr; exact absurd hstr (by decide)
      · rintro ⟨_, h200⟩; exact absurd h200 h2

/-- Witness for C3: the universal part applied at total 50. -/
theorem c3_intake_level_witness : caffeine_level 50 = "Faible" :=
  ((c3_intake_level.1 50 (by norm_num)).1).mpr (by norm_num)

/-- C9: appending a record whose (participant id, date) pair is already in
the store fails with the duplicate-key rejection and leaves the stored
collection unchanged (the rejection carries the store as it was). -/
theorem c9_duplicate_append (logs : List LogRec) (r x : LogRec)
    (hx : x ∈ logs) (hpid : x.participant_id = r.participant_id)
    (hdate : x.date = r.date) :
    submit_daily_entry logs r = SubmitOutcome.duplicateKey logs := by
  unfold submit_daily_entry
  rw [if_pos]
  rw [List.any_eq_true]
  exact ⟨x, hx, by simp [hpid, hdate]⟩

/-- Witness for C9: a one-row store rejects a second row with the same
participant and date. -/
theorem c9_duplicate_append_witness :
    submit_daily_entry [⟨"P001", 10, 150⟩] ⟨"P001", 10, 200⟩
      = SubmitOutcome.duplicateKey [⟨"P001", 10, 150⟩] :=
  c9_duplicate_append _ _ ⟨"P001", 10, 150⟩ (by simp) rfl rfl

/-- C8 counterexample: `compute_caffeine_total` lists breakdown entries in
the MAPPING's iteration order, not in catalog iteration order.  For the
mapping that enumerates "Café filtre" before "Espresso" (both catalog
items with positive counts), the produced breakdown differs from the
catalog-order breakdown the claim demands. -/
theorem c8_breakdown_order_counterexample :
    (compute_caffeine_total
        [("Café filtre (250 ml)", 1), ("Espresso (30 ml)", 2)]).2
      ≠ specCatalogOrderBreakdown
        [("Café filtre (250 ml)", 1), ("Espresso (30 ml)", 2)]
    ∧ (compute_caffeine_total
        [("Café filtre (250 ml)", 1), ("Espresso (30 ml)", 2)]).2
      = "Café filtre (250 ml) x1 (95 mg) | Espresso (30 ml) x2 (150 mg)"
    ∧ specCatalogOrderBreakdown
        [("Café filtre (250 ml)", 1), ("Espresso (30 ml)", 2)]
      = "Espresso (30 ml) x2 (150 mg) | Café filtre (250 ml) x1 (95 mg)" := by
  refine ⟨by decide, rfl, rfl⟩

/-- C8 (amended): the total equals the sum over entries with positive
count of count times the catalog per-unit mg, and the breakdown lists
exactly the entries with positive count, in the MAPPING's iteration order
(which is catalog order for the quantity dict the app builds), each
formatted as `"<item> x<count> (<mg> mg)"` and joined by `" | "`; the
particular mapping A:2, B:0, C:1 over the first three catalog items gives
2*75 + 1*60 and a breakdown omitting B. -/
theorem c8_total_and_breakdown :
    (∀ dq : List (String × ℤ),
      (compute_caffeine_total dq).1
        = ((dq.filter fun p => decide (0 < p.2)).map
            fun p => p.2 * catalogMg p.1).sum
      ∧ (compute_caffeine_total dq).2
        = String.intercalate " | " ((dq.filter fun p => decide (0 < p.2)).map
            fun p => partStr p.1 p.2 (p.2 * catalogMg p.1)))
    ∧ compute_caffeine_total
        [("Espresso (30 ml)", 2), ("Café filtre (250 ml)", 0),
         ("Café instantané (250 ml)", 1)]
      = (2 * 75 + 1 * 60,
         "Espresso (30 ml) x2 (150 mg) | Café instantané (250 ml) x1 (60 mg)") := by
  refine ⟨?_, rfl⟩
  intro dq
  unfold compute_caffeine_total
  rw [caffeineAcc_eq]
  exact ⟨rfl, rfl⟩

/-- C10: a label absent from the catalog contributes exactly 0 mg to the
total (the per-unit lookup defaults to 0), yet with a positive count it
still appears in the breakdown parts as `"<item> x<count> (0 mg)"`. -/
theorem c10_unknown_item (pre post : List (String × ℤ)) (item : String)
    (c : ℤ) (hc : 0 < c) (hno : CAFFEINE_CATALOG.lookup item = none) :
    (compute_caffeine_total (pre ++ (item, c) :: post)).1
      = (compute_caffeine_total (pre ++ post)).1
    ∧ partStr item c 0 ∈ (caffeineAcc (pre ++ (item, c) :: post)).2
    ∧ partStr item c 0 = item ++ " x" ++ toString c ++ " (0 mg)" := by
  have hmg : catalogMg item = 0 := by
    unfold catalogMg; rw [hno]; rfl
  refine ⟨?_, ?_, by simp only [partStr, String.append_assoc]; rfl⟩
  · unfold compute_caffeine_total
    rw [caffeineAcc_eq, caffeineAcc_eq]
    simp [List.filter_append, List.filter_cons, hc, hmg]
  · rw [caffeineAcc_eq]
    simp [List.filter_append, List.filter_cons, hc, hmg]

/-- Witness for C10: a single-entry mapping for the unknown label
"Matcha" with count 1 yields total 0 and the part string "Matcha x1 (0 mg)". -/
theorem c10_unknown_item_witness :
    (compute_caffeine_total ([] ++ ("Matcha", 1) :: [])).1
      = (compute_caffeine_total ([] ++ [])).1
    ∧ partStr "Matcha" 1 0 ∈ (caffeineAcc ([] ++ ("Matcha", 1) :: [])).2
    ∧ partStr "Matcha" 1 0 = "Matcha" ++ " x" ++ toString (1 : ℤ) ++ " (0 mg)" :=
  c10_unknown_item [] [] "Matcha" 1 (by decide) (by decide)

/-- The advisory messages of the `today` block of `build_recommendations`
(`Cafe1.py` lines 236-322).  The source emits distinct French advisory
strings; each constructor stands for one of them, in source order, plus
the fallback.  Note the two distinct messages both guarded by
`caf > 200`: the cardiovascular caution and the overstimulation caution. -/
inductive Msg where
  | lateIntake
  | sleepUnder7
  | heartOver200
  | palpitationsFlag
  | alertnessBand
  | overstimOver200
  | anxietyHigh
  | stressHigh
  | headacheFlag
  | irritabilityFlag
  | digestiveFlag
  | sensitivityForte
  | sensitivityFaible
  | fallback
deriving DecidableEq

/-- The latest daily record as read by `build_recommendations`
(`Cafe1.py` lines 210-220): fields already extracted through
`safe_float`/`safe_int`, plus the participant's declared sensitivity
(empty string when no profile row exists).  `quality` is the sleep quality
column after `pd.to_numeric(errors="coerce")`, hence optional. -/
structure DailyRec where
  caf : ℚ
  last_h : ℤ
  sleep_h : ℚ
  anxiety : ℤ
  stress : ℤ
  palpitations : ℤ
  headache : ℤ
  irritability : ℤ
  digestive : ℤ
  quality : Option ℚ
  sensitivity : String
deriving DecidableEq

/-- Rule 1 predicate: `last_h >= 17 and caf >= 100`. -/
def cond_late (r : DailyRec) : Bool :=
  decide (17 ≤ r.last_h) && decide (100 ≤ r.caf)

/-- Rule 2 predicate: `sleep_h < 7`. -/
def cond_sleep (r : DailyRec) : Bool :=
  decide (r.sleep_h < 7)

/-- Rule 3 predicate (cardiovascular caution): `caf > 200`. -/
def cond_heart (r : DailyRec) : Bool :=
  decide (200 < r.caf)

/-- Rule 4 predicate: `palpitations == 1`. -/
def cond_palp (r : DailyRec) : Bool :=
  decide (r.palpitations = 1)

/-- Rule 5 predicate: `80 <= caf <= 150`. -/
def cond_band (r : DailyRec) : Bool :=
  decide (80 ≤ r.caf) && decide (r.caf ≤ 150)

/-- Rule 6 predicate (overstimulation caution): `caf > 200` again. -/
def cond_over (r : DailyRec) : Bool :=
  decide (200 < r.caf)

/-- Rule 7 predicate: `anxiety >= 7 and caf >= 150`. -/
def cond_anx (r : DailyRec) : Bool :=
  decide (7 ≤ r.anxiety) && decide (150 ≤ r.caf)

/-- Rule 8 predicate: `stress >= 7 and caf >= 150`. -/
def cond_str (r : DailyRec) : Bool :=
  decide (7 ≤ r.stress) && decide (150 ≤ r.caf)

/-- Rule 9 predicate: `headache == 1`. -/
def cond_head (r : DailyRec) : Bool :=
  decide (r.headache = 1)

/-- Rule 10 predicate: `irritability == 1`. -/
def cond_irrit (r : DailyRec) : Bool :=
  decide (r.irritability = 1)

/-- Rule 11 predicate: `digestive == 1`. -/
def cond_dig (r : DailyRec) : Bool :=
  decide (r.digestive = 1)

/-- ASCII lowering of one character, as Python's `str.lower()` acts on
the sensitivity values `"Faible"`, `"Moyenne"`, `"Forte"` of the app. -/
def lowerChar (ch : Char) : Char :=
  if 'A' ≤ ch ∧ ch ≤ 'Z' then Char.ofNat (ch.toNat + 32) else ch

/-- Python `str.lower()` on the ASCII-cased sensitivity strings. -/
def strLower (s : String) : String :=
  String.mk (s.data.map lowerChar)

/-- Rule 12 predicate: `sensitivity.lower() == "forte" and caf >= 150`. -/
def cond_forte (r : DailyRec) : Bool :=
  decide (strLower r.sensitivity = "forte") && decide (150 ≤ r.caf)

/-- Rule 13 predicate: `sensitivity.lower() == "faible" and caf > 300`. -/
def cond_faible (r : DailyRec) : Bool :=
  decide (strLower r.sensitivity = "faible") && decide (300 < r.caf)

/-- The sequence of `if ...: today.append(...)` statements of
`build_recommendations` (`Cafe1.py` lines 236-316), in source order. -/
def today_msgs (r : DailyRec) : List Msg :=
  (if cond_late r then [Msg.lateIntake] else []) ++
  (if cond_sleep r then [Msg.sleepUnder7] else []) ++
  (if cond_heart r then [Msg.heartOver200] else []) ++
  (if cond_palp r then [Msg.palpitationsFlag] else []) ++
  (if cond_band r then [Msg.alertnessBand] else []) ++
  (if cond_over r then [Msg.overstimOver200] else []) ++
  (if cond_anx r then [Msg.anxietyHigh] else []) ++
  (if cond_str r then [Msg.stressHigh] else []) ++
  (if cond_head r then [Msg.headacheFlag] else []) ++
  (if cond_irrit r then [Msg.irritabilityFlag] else []) ++
  (if cond_dig r then [Msg.digestiveFlag] else []) ++
  (if cond_forte r then [Msg.sensitivityForte] else []) ++
  (if cond_faible r then [Msg.sensitivityFaible] else [])

/-- The `if not today: today.append(...)` fallback of `Cafe1.py`
lines 318-322: the full same-day advice list. -/
def today (r : DailyRec) : List Msg :=
  if today_msgs r = [] then [Msg.fallback] else today_msgs r

/-- The rule table of specification section 4.2: predicates and messages
in the fixed evaluation order of the source. -/
def ruleTable : List ((DailyRec → Bool) × Msg) :=
  [(cond_late, Msg.lateIntake),
   (cond_sleep, Msg.sleepUnder7),
   (cond_heart, Msg.heartOver200),
   (cond_palp, Msg.palpitationsFlag),
   (cond_band, Msg.alertnessBand),
   (cond_over, Msg.overstimOver200),
   (cond_anx, Msg.anxietyHigh),
   (cond_str, Msg.stressHigh),
   (cond_head, Msg.headacheFlag),
   (cond_irrit, Msg.irritabilityFlag),
   (cond_dig, Msg.digestiveFlag),
   (cond_forte, Msg.sensitivityForte),
   (cond_faible, Msg.sensitivityFaible)]

/-- No rule predicate of the table holds for the record. -/
def no_rule_holds (r : DailyRec) : Prop :=
  cond_late r = false ∧ cond_sleep r = false ∧ cond_heart r = false ∧
  cond_palp r = false ∧ cond_band r = false ∧ cond_over r = false ∧
  cond_anx r = false ∧ cond_str r = false ∧ cond_head r = false ∧
  cond_irrit r = false ∧ cond_dig r = false ∧ cond_forte r = false ∧
  cond_faible r = false

instance (r : DailyRec) : Decidable (no_rule_holds r) := by
  unfold no_rule_holds
  infer_instance

/-- The record of C1's particular case: total 250, last hour 18, sleep 6,
all other signals quiet. -/
def rec250 : DailyRec :=
  { caf := 250, last_h := 18, sleep_h := 6, anxiety := 0, stress := 0,
    palpitations := 0, headache := 0, irritability := 0, digestive := 0,
    quality := none, sensitivity := "" }

/-- A quiet record on which no rule predicate holds. -/
def calmRec : DailyRec :=
  { caf := 50, last_h := 10, sleep_h := 8, anxiety := 1, stress := 1,
    palpitations := 0, headache := 0, irritability := 0, digestive := 0,
    quality := some 3, sensitivity := "Moyenne" }

lemma ite_singleton_eq_nil {α : Type} (c : Prop) [Decidable c] (m : α) :
    ((if c then [m] else []) = ([] : List α)) ↔ ¬ c := by
  split <;> simp_all

lemma mem_ite_singleton {α : Type} (c : Prop) [Decidable c] (a m : α) :
    (a ∈ (if c then [m] else [])) ↔ (c ∧ a = m) := by
  split <;> simp_all

/-- The same-day list is empty exactly when no rule predicate holds. -/
lemma today_msgs_eq_nil (r : DailyRec) :
    today_msgs r = [] ↔ no_rule_holds r := by
  simp only [today_msgs, no_rule_holds, List.append_eq_nil,
    ite_singleton_eq_nil, Bool.not_eq_true]
  tauto

/-- The fallback message is never produced by a rule. -/
lemma fallback_not_mem_today_msgs (r : DailyRec) :
    Msg.fallback ∉ today_msgs r := by
  simp [today_msgs, List.mem_append, mem_ite_singleton]

/-- C1: the fallback "no concerns detected" message appears in the
same-day output exactly when no rule predicate holds, and then it is the
only message; in particular the record with total 250, last hour 18 and
sleep 6 produces the late-intake, sleep-under-7h and total-over-200
messages and not the fallback. -/
theorem c1_fallback_message :
    (∀ r, Msg.fallback ∈ today r ↔ no_rule_holds r)
    ∧ (∀ r, no_rule_holds r → today r = [Msg.fallback])
    ∧ (Msg.lateIntake ∈ today rec250 ∧ Msg.sleepUnder7 ∈ today rec250 ∧
       Msg.heartOver200 ∈ today rec250 ∧ Msg.fallback ∉ today rec250) := by
  refine ⟨?_, ?_, ?_⟩
  · intro r
    constructor
    · intro h
      by_cases hnil : today_msgs r = []
      · exact (today_msgs_eq_nil r).mp hnil
      · exfalso
        apply fallback_not_mem_today_msgs r
        simpa [today, hnil] using h
    · intro hn
      simp [today, (today_msgs_eq_nil r).mpr hn]
  · intro r hn
    simp [today, (today_msgs_eq_nil r).mpr hn]
  · decide

/-- Witness for C1: on the quiet record no rule fires and the output is
exactly the fallback message. -/
theorem c1_fallback_message_witness : today calmRec = [Msg.fallback] :=
  c1_fallback_message.2.1 calmRec (by decide)

lemma table_step {α β : Type} (x : α) (p : (α → Bool) × β)
    (ts : List ((α → Bool) × β)) :
    (((p :: ts).filter (fun q => q.1 x)).map Prod.snd)
      = (if p.1 x then [p.2] else []) ++
        ((ts.filter (fun q => q.1 x)).map Prod.snd) := by
  cases h : p.1 x <;> simp [List.filter_cons, h]

/-- C4: the same-day list equals the ordered rule table filtered to the
rules whose predicate holds — every firing rule contributes its message
(rules never suppress one another), in the fixed evaluation order late
intake, sleep under 7h, total over 200 (cardio), palpitations, 80-150
band, total over 200 (overstimulation), anxiety, stress, the per-symptom
flags, then the two sensitivity rules. -/
theorem c4_rule_table_order (r : DailyRec) :
    today_msgs r = (ruleTable.filter (fun p => p.1 r)).map Prod.snd := by
  simp only [ruleTable, table_step, List.filter_nil, List.map_nil,
    List.append_nil]
  simp [today_msgs]

/-- The intake-level bins of the trend block: labels of
`pd.cut(..., bins=[-1, 99, 200, 10_000])` in category order
Faible (<100), Moyen (100-200), Élevé (>200). -/
inductive Bin where
  | faible
  | moyen
  | eleve
deriving DecidableEq

/-- The trend messages of the `patterns` block of `build_recommendations`
(`Cafe1.py` lines 324-381).  Each constructor stands for one of the
distinct French pattern strings; `high`, `late` and `lowSleep` carry the
day count named in the message, `comparison` carries the best and worst
bins with their mean sleep qualities (the source renders the means
rounded to two decimals; tie order of the source's unstable sort is
resolved here to the first bin in category order). -/
inductive PMsg where
  | high (n : ℕ)
  | late (n : ℕ)
  | lowSleep (n : ℕ)
  | comparison (best : Bin) (bestMean : ℚ) (worst : Bin) (worstMean : ℚ)
  | insufficient
deriving DecidableEq

/-- `df.tail(7)`: the trailing window of up to 7 records of the
date-sorted history. -/
def last7 (recs : List DailyRec) : List DailyRec :=
  recs.drop (recs.length - 7)

/-- `(last7["caffeine_mg_total"] > 200).sum()`. -/
def highCafDays (w : List DailyRec) : ℕ :=
  w.countP (fun r => decide (200 < r.caf))

/-- `(last7["last_caffeine_hour"] >= 17).sum()`. -/
def lateDays (w : List DailyRec) : ℕ :=
  w.countP (fun r => decide (17 ≤ r.last_h))

/-- `(last7["sleep_hours"] < 7).sum()`. -/
def lowSleepDays (w : List DailyRec) : ℕ :=
  w.countP (fun r => decide (r.sleep_h < 7))

/-- The three `if count >= 3: patterns.append(...)` statements, in source
append order: high caffeine days, late days, low sleep days. -/
def trendMsgs (w : List DailyRec) : List PMsg :=
  (if 3 ≤ highCafDays w then [PMsg.high (highCafDays w)] else []) ++
  (if 3 ≤ lateDays w then [PMsg.late (lateDays w)] else []) ++
  (if 3 ≤ lowSleepDays w then [PMsg.lowSleep (lowSleepDays w)] else [])

/-- `pd.cut` with bins `[-1, 99, 200, 10_000]`: half-open intervals
(-1, 99], (99, 200], (200, 10000]; values outside fall in no bin. -/
def binOf (caf : ℚ) : Option Bin :=
  if caf ≤ -1 then none
  else if caf ≤ 99 then some Bin.faible
  else if caf ≤ 200 then some Bin.moyen
  else if caf ≤ 10000 then some Bin.eleve
  else none

/-- The window records falling into a given bin. -/
def binMembers (w : List DailyRec) (b : Bin) : List DailyRec :=
  w.filter (fun r => decide (binOf r.caf = some b))

/-- `groupby("caf_bin", observed=True)`: the non-empty bins, in category
order. -/
def observedBins (w : List DailyRec) : List Bin :=
  [Bin.faible, Bin.moyen, Bin.eleve].filter (fun b => !(binMembers w b).isEmpty)

/-- `g["n"].sum()`: the total record count across the observed bins. -/
def nSum (w : List DailyRec) : ℕ :=
  ((observedBins w).map (fun b => (binMembers w b).length)).sum

/-- Pandas mean with NaN skipping: the mean of the defined values, or
undefined when none is defined. -/
def meanOpt (qs : List ℚ) : Option ℚ :=
  if qs.isEmpty then none else some (qs.sum / (qs.length : ℚ))

/-- The `sleep_q` aggregate of one bin group: mean sleep quality over the
bin members whose quality is defined. -/
def binMean (w : List DailyRec) (b : Bin) : Option ℚ :=
  meanOpt ((binMembers w b).filterMap (fun r => r.quality))

/-- `g.dropna(subset=["sleep_q"])`: the observed bins with a defined mean
sleep quality, in category order, paired with that mean. -/
def validBins (w : List DailyRec) : List (Bin × ℚ) :=
  (observedBins w).filterMap (fun b => (binMean w b).map (fun q => (b, q)))

/-- `sort_values("sleep_q", ascending=False).iloc[0]`: a row of maximal
mean (first such in category order), or none when the frame is empty (the
source's IndexError, caught by its `except`). -/
def pickBest : List (Bin × ℚ) → Option (Bin × ℚ)
  | [] => none
  | x :: xs => some (xs.foldl (fun acc y => if acc.2 < y.2 then y else acc) x)

/-- `sort_values("sleep_q", ascending=True).iloc[0]`: a row of minimal
mean, or none when the frame is empty. -/
def pickWorst : List (Bin × ℚ) → Option (Bin × ℚ)
  | [] => none
  | x :: xs => some (xs.foldl (fun acc y => if y.2 < acc.2 then y else acc) x)

/-- The bin-comparison block of `Cafe1.py` lines 355-378: guarded by
`not g.empty and g["n"].sum() >= 5`, then the best/worst lookup inside
`try`, whose IndexError on an all-undefined frame is swallowed. -/
def binComparison (w : List DailyRec) : List PMsg :=
  if (observedBins w).isEmpty then []
  else if nSum w < 5 then []
  else
    match pickBest (validBins w), pickWorst (validBins w) with
    | some b, some wo => [PMsg.comparison b.1 b.2 wo.1 wo.2]
    | _, _ => []

/-- The `if len(last7) >= 3:` body of the patterns block: trend messages
followed by the bin comparison; empty below the 3-record floor. -/
def patterns_core (recs : List DailyRec) : List PMsg :=
  if 3 ≤ (last7 recs).length then
    trendMsgs (last7 recs) ++ binComparison (last7 recs)
  else []

/-- The full patterns output: `if not patterns: patterns.append(...)`
turns an empty list into the single insufficient-data message
(`Cafe1.py` lines 380-381). -/
def patterns (recs : List DailyRec) : List PMsg :=
  if patterns_core recs = [] then [PMsg.insufficient] else patterns_core recs

/-- A record with total 250 (High bin), early last intake, 8h sleep,
quality 3. -/
def highRec : DailyRec :=
  { caf := 250, last_h := 10, sleep_h := 8, anxiety := 0, stress := 0,
    palpitations := 0, headache := 0, irritability := 0, digestive := 0,
    quality := some 3, sensitivity := "" }

/-- Exactly two records: below the trend floor. -/
def ex2 : List DailyRec := [highRec, highRec]

/-- Exactly three records, all with total over 200. -/
def ex3 : List DailyRec := [highRec, highRec, highRec]

/-- Five records, all in the High bin with defined quality: one observed
bin only. -/
def ex5 : List DailyRec := [highRec, highRec, highRec, highRec, highRec]

/-- A comparison message never arises from the day-count trend rules. -/
lemma comparison_not_mem_trendMsgs (w : List DailyRec) (b : Bin) (bq : ℚ)
    (wo : Bin) (wq : ℚ) :
    PMsg.comparison b bq wo wq ∉ trendMsgs w := by
  simp [trendMsgs, List.mem_append, mem_ite_singleton]

/-- Membership of a high-count message in the trend block. -/
lemma high_mem_trendMsgs (w : List DailyRec) (n : ℕ) :
    PMsg.high n ∈ trendMsgs w ↔ (3 ≤ highCafDays w ∧ n = highCafDays w) := by
  simp [trendMsgs, List.mem_append, mem_ite_singleton]

/-- Membership of a late-days message in the trend block. -/
lemma late_mem_trendMsgs (w : List DailyRec) (n : ℕ) :
    PMsg.late n ∈ trendMsgs w ↔ (3 ≤ lateDays w ∧ n = lateDays w) := by
  simp [trendMsgs, List.mem_append, mem_ite_singleton]

/-- Membership of a low-sleep message in the trend block. -/
lemma lowSleep_mem_trendMsgs (w : List DailyRec) (n : ℕ) :
    PMsg.lowSleep n ∈ trendMsgs w ↔ (3 ≤ lowSleepDays w ∧ n = lowSleepDays w) := by
  simp [trendMsgs, List.mem_append, mem_ite_singleton]

/-- Everything the bin-comparison block emits is a comparison message. -/
lemma mem_binComparison (w : List DailyRec) (m : PMsg)
    (hm : m ∈ binComparison w) :
    ∃ b bq wo wq, m = PMsg.comparison b bq wo wq := by
  unfold binComparison at hm
  split at hm
  · simp at hm
  · split at hm
    · simp at hm
    · split at hm
      · simp at hm
        exact ⟨_, _, _, _, hm⟩
      · simp at hm

/-- A message other than a comparison or the insufficient-data notice is
in the output exactly when the window passes the 3-record floor and a
trend rule produced it. -/
lemma trend_mem_patterns (recs : List DailyRec) (m : PMsg)
    (hcomp : ∀ b bq wo wq, m ≠ PMsg.comparison b bq wo wq)
    (hins : m ≠ PMsg.insufficient) :
    m ∈ patterns recs ↔ (3 ≤ (last7 recs).length ∧ m ∈ trendMsgs (last7 recs)) := by
  unfold patterns
  by_cases hnil : patterns_core recs = []
  · rw [if_pos hnil]
    simp only [List.mem_singleton]
    constructor
    · intro h; exact absurd h hins
    · rintro ⟨hlen, hmem⟩
      exfalso
      apply hins
      have : patterns_core recs ≠ [] := by
        unfold patterns_core
        rw [if_pos hlen]
        intro h
        rw [List.append_eq_nil] at h
        rw [h.1] at hmem
        simp at hmem
      exact absurd hnil this
  · rw [if_neg hnil]
    unfold patterns_core at hnil ⊢
    by_cases hlen : 3 ≤ (last7 recs).length
    · rw [if_pos hlen]
      simp only [List.mem_append, hlen, true_and]
      constructor
      · rintro (h | h)
        · exact h
        · obtain ⟨b, bq, wo, wq, rfl⟩ := mem_binComparison _ _ h
          exact absurd rfl (hcomp b bq wo wq)
      · exact Or.inl
    · rw [if_neg hlen] at hnil
      exact absurd rfl hnil

/-- C6: with fewer than 3 records in the trailing window, the trend output
is exactly the single insufficient-data message; the trend output is never
empty; with exactly 2 records it is only the insufficient-data message. -/
theorem c6_insufficient_data :
    (∀ recs, (last7 recs).length < 3 → patterns recs = [PMsg.insufficient])
    ∧ (∀ recs, patterns recs ≠ [])
    ∧ patterns ex2 = [PMsg.insufficient] := by
  refine ⟨?_, ?_, by decide⟩
  · intro recs h
    have hcore : patterns_core recs = [] := by
      unfold patterns_core
      rw [if_neg (by omega)]
    unfold patterns
    rw [if_pos hcore]
  · intro recs
    unfold patterns
    by_cases hnil : patterns_core recs = []
    · rw [if_pos hnil]; simp
    · rw [if_neg hnil]; exact hnil

/-- Witness for C6: the two-record history yields only the
insufficient-data message. -/
theorem c6_insufficient_data_witness : patterns ex2 = [PMsg.insufficient] :=
  c6_insufficient_data.1 ex2 (by decide)

/-- C7: over a window passing the 3-record floor, each of the three day
counters (total over 200, last hour at least 17, sleep under 7h) emits its
pattern message naming the count exactly when the count is at least 3,
and the messages co-occur independently; in particular 3 records all with
total over 200 yield the high-count message with count 3. -/
theorem c7_day_count_patterns :
    (∀ recs n,
      (PMsg.high n ∈ patterns recs ↔
        (3 ≤ (last7 recs).length ∧ n = highCafDays (last7 recs) ∧ 3 ≤ n))
      ∧ (PMsg.late n ∈ patterns recs ↔
        (3 ≤ (last7 recs).length ∧ n = lateDays (last7 recs) ∧ 3 ≤ n))
      ∧ (PMsg.lowSleep n ∈ patterns recs ↔
        (3 ≤ (last7 recs).length ∧ n = lowSleepDays (last7 recs) ∧ 3 ≤ n)))
    ∧ PMsg.high 3 ∈ patterns ex3 := by
  constructor
  · intro recs n
    refine ⟨?_, ?_, ?_⟩
    · rw [trend_mem_patterns recs _ (by intro b bq wo wq h; simp at h) (by simp),
        high_mem_trendMsgs]
      constructor
      · rintro ⟨hl, h3, hn⟩; exact ⟨hl, hn, hn ▸ h3⟩
      · rintro ⟨hl, hn, h3⟩; exact ⟨hl, hn ▸ h3, hn⟩
    · rw [trend_mem_patterns recs _ (by intro b bq wo wq h; simp at h) (by simp),
        late_mem_trendMsgs]
      constructor
      · rintro ⟨hl, h3, hn⟩; exact ⟨hl, hn, hn ▸ h3⟩
      · rintro ⟨hl, hn, h3⟩; exact ⟨hl, hn ▸ h3, hn⟩
    · rw [trend_mem_patterns recs _ (by intro b bq wo wq h; simp at h) (by simp),
        lowSleep_mem_trendMsgs]
      constructor
      · rintro ⟨hl, h3, hn⟩; exact ⟨hl, hn, hn ▸ h3⟩
      · rintro ⟨hl, hn, h3⟩; exact ⟨hl, hn ▸ h3, hn⟩
  · decide

/-- The comparison block emits exactly when the guard and the lookup
succeed: some observed bin, at least 5 binned records, and at least one
bin with a defined mean. -/
lemma comparison_mem_binComparison (w : List DailyRec) :
    (∃ b bq wo wq, PMsg.comparison b bq wo wq ∈ binComparison w)
      ↔ ((observedBins w).isEmpty = false ∧ 5 ≤ nSum w ∧ validBins w ≠ []) := by
  by_cases h1 : (observedBins w).isEmpty
  · constructor
    · rintro ⟨b, bq, wo, wq, hm⟩
      unfold binComparison at hm
      rw [if_pos h1] at hm
      simp at hm
    · rintro ⟨hobs, _, _⟩
      rw [h1] at hobs
      exact absurd hobs (by simp)
  · by_cases h2 : nSum w < 5
    · constructor
      · rintro ⟨b, bq, wo, wq, hm⟩
        unfold binComparison at hm
        rw [if_neg h1, if_pos h2] at hm
        simp at hm
      · rintro ⟨_, h5, _⟩
        omega
    · cases hv : validBins w with
      | nil =>
        constructor
        · rintro ⟨b, bq, wo, wq, hm⟩
          unfold binComparison at hm
          rw [if_neg h1, if_neg h2, hv] at hm
          simp [pickBest, pickWorst] at hm
        · rintro ⟨_, _, hne⟩
          exact absurd rfl hne
      | cons x xs =>
        constructor
        · intro _
          refine ⟨by simpa using h1, by omega, by simp⟩
        · intro _
          have hb : pickBest (validBins w)
              = some (xs.foldl (fun acc y => if acc.2 < y.2 then y else acc) x) := by
            rw [hv]; rfl
          have hw : pickWorst (validBins w)
              = some (xs.foldl (fun acc y => if y.2 < acc.2 then y else acc) x) := by
            rw [hv]; rfl
          refine ⟨(xs.foldl (fun acc y => if acc.2 < y.2 then y else acc) x).1,
                  (xs.foldl (fun acc y => if acc.2 < y.2 then y else acc) x).2,
                  (xs.foldl (fun acc y => if y.2 < acc.2 then y else acc) x).1,
                  (xs.foldl (fun acc y => if y.2 < acc.2 then y else acc) x).2, ?_⟩
          unfold binComparison
          rw [if_neg h1, if_neg h2, hb, hw]
          exact List.mem_singleton.mpr rfl

/-- The observed-bin sizes sum to the three per-bin member counts. -/
lemma nSum_eq_parts (w : List DailyRec) :
    nSum w = (binMembers w Bin.faible).length + (binMembers w Bin.moyen).length
      + (binMembers w Bin.eleve).length := by
  unfold nSum observedBins
  cases hF : (binMembers w Bin.faible).isEmpty <;>
    cases hM : (binMembers w Bin.moyen).isEmpty <;>
      cases hE : (binMembers w Bin.eleve).isEmpty <;>
        (simp_all [List.isEmpty_iff]; try omega)

/-- Each record lies in at most one bin, so the per-bin counts are bounded
by the window length. -/
lemma parts_le_length (w : List DailyRec) :
    (binMembers w Bin.faible).length + (binMembers w Bin.moyen).length
      + (binMembers w Bin.eleve).length ≤ w.length := by
  induction w with
  | nil => simp [binMembers]
  | cons r t ih =>
    unfold binMembers at ih ⊢
    rcases h : binOf r.caf with _ | b
    · simp only [List.filter_cons, h]
      simp only [List.length_cons]
      simp [h]
      omega
    · cases b <;> simp [List.filter_cons, h] <;> omega

/-- The binned record count never exceeds the window length. -/
lemma nSum_le_length (w : List DailyRec) : nSum w ≤ w.length := by
  rw [nSum_eq_parts]
  exact parts_le_length w

/-- Five binned records force a non-empty observed-bin list. -/
lemma observed_nonempty_of_nSum (w : List DailyRec) (h : 5 ≤ nSum w) :
    (observedBins w).isEmpty = false := by
  cases hE : (observedBins w).isEmpty
  · rfl
  · exfalso
    have hnil : observedBins w = [] := by simpa [List.isEmpty_iff] using hE
    rw [nSum, hnil] at h
    simp at h

/-- C5 counterexample: five records all in the High bin with defined
sleep quality — only ONE bin has a defined mean, yet the source emits the
bin-comparison message (with best = worst), contradicting the claim that
at least two defined bins are required. -/
theorem c5_bin_comparison_counterexample :
    PMsg.comparison Bin.eleve 3 Bin.eleve 3 ∈ patterns ex5
    ∧ (validBins (last7 ex5)).length = 1 := by
  have hlast : last7 ex5 = ex5 := rfl
  have hqs : (binMembers ex5 Bin.eleve).filterMap (fun r => r.quality)
      = [3, 3, 3, 3, 3] := by decide
  have hmean : binMean ex5 Bin.eleve = some 3 := by
    unfold binMean
    rw [hqs]
    norm_num [meanOpt, List.sum_cons, List.sum_nil]
  have hobs : observedBins ex5 = [Bin.eleve] := by decide
  have hvalid : validBins ex5 = [(Bin.eleve, 3)] := by
    unfold validBins
    rw [hobs]
    simp [hmean]
  have hn : nSum ex5 = 5 := by decide
  have hcomp : binComparison ex5 = [PMsg.comparison Bin.eleve 3 Bin.eleve 3] := by
    unfold binComparison
    rw [if_neg (by rw [hobs]; decide), if_neg (by rw [hn]; decide), hvalid]
    rfl
  have htrend : trendMsgs ex5 = [PMsg.high 5] := by decide
  have hcore : patterns_core ex5
      = [PMsg.high 5, PMsg.comparison Bin.eleve 3 Bin.eleve 3] := by
    unfold patterns_core
    rw [if_pos (by decide), hlast, htrend, hcomp]
    rfl
  constructor
  · unfold patterns
    rw [if_neg (by rw [hcore]; simp), hcore]
    simp
  · rw [hlast, hvalid]
    rfl

/-- C5 (amended): the bin comparison is reported exactly when the total
record count across the intake-level bins is at least 5 and at least ONE
bin has a defined mean sleep quality (the source reports that bin as both
best and worst when it is alone); the 3-record window floor is implied by
the 5-record bin count.  The claim's two-defined-bin threshold belongs to
the `weekly_insights` variant in `cafe.py`, not to the windowed analyzer. -/
theorem c5_bin_comparison_amended (recs : List DailyRec) :
    (∃ b bq wo wq, PMsg.comparison b bq wo wq ∈ patterns recs)
      ↔ (5 ≤ nSum (last7 recs) ∧ validBins (last7 recs) ≠ []) := by
  constructor
  · rintro ⟨b, bq, wo, wq, hm⟩
    unfold patterns at hm
    by_cases hnil : patterns_core recs = []
    · rw [if_pos hnil] at hm
      simp at hm
    · rw [if_neg hnil] at hm
      unfold patterns_core at hm hnil
      by_cases hlen : 3 ≤ (last7 recs).length
      · rw [if_pos hlen] at hm
        rcases List.mem_append.mp hm with h | h
        · exact absurd h (comparison_not_mem_trendMsgs _ _ _ _ _)
        · have hc := (comparison_mem_binComparison (last7 recs)).mp ⟨b, bq, wo, wq, h⟩
          exact ⟨hc.2.1, hc.2.2⟩
      · rw [if_neg hlen] at hnil
        exact absurd rfl hnil
  · rintro ⟨h5, hv⟩
    have hlen : 3 ≤ (last7 recs).length := by
      have := nSum_le_length (last7 recs)
      omega
    have hobs := observed_nonempty_of_nSum _ h5
    obtain ⟨b, bq, wo, wq, hm⟩ :=
      (comparison_mem_binComparison (last7 recs)).mpr ⟨hobs, h5, hv⟩
    have hcore : PMsg.comparison b bq wo wq ∈ patterns_core recs := by
      unfold patterns_core
      rw [if_pos hlen]
      exact List.mem_append.mpr (Or.inr hm)
    refine ⟨b, bq, wo, wq, ?_⟩
    unfold patterns
    rw [if_neg (by intro h; rw [h] at hcore; simp at hcore)]
    exact hcore

end Cafe
